import Mathlib

/-!
Verification of `apod_desktop.py` (COMP 593 final project): a script that
downloads NASA's Astronomy Picture of the Day, caches it in a SQLite
catalog keyed by SHA-256 content digest, and sets it as desktop background.

The Python source is shallowly embedded below: pure helpers become Lean
functions; process state (catalog db, written files, desktop background)
is threaded explicitly through `runMain`, which mirrors `main` line by
line; HTTP responses are supplied by an `Env` record; `exit(...)` becomes
an `Except` error carrying the printed message.
-/

/-! ## 32-bit word arithmetic for SHA-256 (hashlib.sha256) -/

/-- Truncate to a 32-bit word. -/
def w32 (n : Nat) : Nat := n % 4294967296

/-- Right rotation of a 32-bit word by `n` bits. -/
def rotr32 (n x : Nat) : Nat := w32 ((x >>> n) ||| (x <<< (32 - n)))

/-- Bitwise complement within 32 bits. -/
def not32 (x : Nat) : Nat := Nat.xor 4294967295 x

def sha_ch (e f g : Nat) : Nat := Nat.xor (e &&& f) ((not32 e) &&& g)

def sha_maj (a b c : Nat) : Nat := Nat.xor (Nat.xor (a &&& b) (a &&& c)) (b &&& c)

def bigSigma0 (x : Nat) : Nat := Nat.xor (Nat.xor (rotr32 2 x) (rotr32 13 x)) (rotr32 22 x)

def bigSigma1 (x : Nat) : Nat := Nat.xor (Nat.xor (rotr32 6 x) (rotr32 11 x)) (rotr32 25 x)

def smallSigma0 (x : Nat) : Nat := Nat.xor (Nat.xor (rotr32 7 x) (rotr32 18 x)) (x >>> 3)

def smallSigma1 (x : Nat) : Nat := Nat.xor (Nat.xor (rotr32 17 x) (rotr32 19 x)) (x >>> 10)

/-- The 64 SHA-256 round constants of FIPS 180-4 (in decimal). -/
def sha256K : List Nat :=
  [1116352408, 1899447441, 3049323471, 3921009573, 961987163,
   1508970993, 2453635748, 2870763221, 3624381080, 310598401,
   607225278, 1426881987, 1925078388, 2162078206, 2614888103,
   3248222580, 3835390401, 4022224774, 264347078, 604807628,
   770255983, 1249150122, 1555081692, 1996064986, 2554220882,
   2821834349, 2952996808, 3210313671, 3336571891, 3584528711,
   113926993, 338241895, 666307205, 773529912, 1294757372,
   1396182291, 1695183700, 1986661051, 2177026350, 2456956037,
   2730485921, 2820302411, 3259730800, 3345764771, 3516065817,
   3600352804, 4094571909, 275423344, 430227734, 506948616,
   659060556, 883997877, 958139571, 1322822218, 1537002063,
   1747873779, 1955562222, 2024104815, 2227730452, 2361852424,
   2428436474, 2756734187, 3204031479, 3329325298]

/-- Big-endian byte decomposition, `k` bytes. -/
def beBytes : Nat → Nat → List Nat
  | 0, _ => []
  | k + 1, n => beBytes k (n / 256) ++ [n % 256]

/-- SHA-256 padding: append 0x80, zeros to 56 mod 64, then 8-byte big-endian bit length. -/
def padMsg (msg : List Nat) : List Nat :=
  let L := msg.length
  let z := (119 - L % 64) % 64
  msg ++ [128] ++ List.replicate z 0 ++ beBytes 8 (8 * L)

/-- Split a byte list into 64-byte chunks; the `Nat` argument is an upper
bound on the number of chunks, making the recursion structural. -/
def chunk64Aux : Nat → List Nat → List (List Nat)
  | _, [] => []
  | 0, _ => []
  | n + 1, c :: cs => ((c :: cs).take 64) :: chunk64Aux n (cs.drop 63)

/-- Split a byte list into 64-byte chunks. -/
def chunk64 (l : List Nat) : List (List Nat) := chunk64Aux l.length l

/-- Group bytes into big-endian 32-bit words. -/
def bytesToWords : List Nat → List Nat
  | b0 :: b1 :: b2 :: b3 :: rest =>
      (b0 * 16777216 + b1 * 65536 + b2 * 256 + b3) :: bytesToWords rest
  | _ => []

/-- Extend the message schedule; `acc` holds the words generated so far, most recent first. -/
def extendW (acc : List Nat) : Nat → List Nat
  | 0 => acc.reverse
  | n + 1 =>
      extendW
        (w32 (smallSigma1 (acc.getD 1 0) + acc.getD 6 0 +
              smallSigma0 (acc.getD 14 0) + acc.getD 15 0) :: acc) n

structure Hash8 where
  a : Nat
  b : Nat
  c : Nat
  d : Nat
  e : Nat
  f : Nat
  g : Nat
  h : Nat
deriving Repr, DecidableEq

/-- SHA-256 initial hash value (FIPS 180-4, in decimal). -/
def sha256H0 : Hash8 :=
  ⟨1779033703, 3144134277, 1013904242, 2773480762,
   1359893119, 2600822924, 528734635, 1541459225⟩

/-- One SHA-256 compression round. -/
def sha256Round (s : Hash8) (k w : Nat) : Hash8 :=
  let t1 := w32 (s.h + bigSigma1 s.e + sha_ch s.e s.f s.g + k + w)
  let t2 := w32 (bigSigma0 s.a + sha_maj s.a s.b s.c)
  ⟨w32 (t1 + t2), s.a, s.b, s.c, w32 (s.d + t1), s.e, s.f, s.g⟩

def sha256Rounds (s : Hash8) : List (Nat × Nat) → Hash8
  | [] => s
  | (k, w) :: rest => sha256Rounds (sha256Round s k w) rest

/-- Process one 64-byte block. -/
def sha256Block (hs : Hash8) (block : List Nat) : Hash8 :=
  let ws := extendW (bytesToWords block).reverse 48
  let s := sha256Rounds hs (sha256K.zip ws)
  ⟨w32 (hs.a + s.a), w32 (hs.b + s.b), w32 (hs.c + s.c), w32 (hs.d + s.d),
   w32 (hs.e + s.e), w32 (hs.f + s.f), w32 (hs.g + s.g), w32 (hs.h + s.h)⟩

/-- The eight 32-bit words of the SHA-256 digest of a byte string. -/
def sha256Words (msg : List Nat) : List Nat :=
  let fin := (chunk64 (padMsg msg)).foldl sha256Block sha256H0
  [fin.a, fin.b, fin.c, fin.d, fin.e, fin.f, fin.g, fin.h]

/-- Lower-case hex digit. -/
def hexChar (n : Nat) : Char := if n < 10 then Char.ofNat (48 + n) else Char.ofNat (87 + n)

/-- `k` hex digits of `n`, most significant first. -/
def toHexNibbles : Nat → Nat → List Char
  | 0, _ => []
  | k + 1, n => toHexNibbles k (n / 16) ++ [hexChar (n % 16)]

/-- `hashlib.sha256(content).hexdigest()`: the 64-character lower-case hex digest. -/
def sha256hexdigest (msg : List Nat) : String :=
  String.mk (((sha256Words msg).map (toHexNibbles 8)).flatten)

/-! ## String helpers (Python `str.split`, `os.path.join`, endswith) -/

/-- Python `s.split(sep)` on character lists: splits at every occurrence of
`sep`, keeping empty groups; `"".split(sep) == [""]`. -/
def pySplitChar (sep : Char) : List Char → List (List Char)
  | [] => [[]]
  | c :: cs =>
      let r := pySplitChar sep cs
      if c = sep then [] :: r
      else
        match r with
        | [] => [[c]]
        | g :: gs => (c :: g) :: gs

/-- Whether a character occurs in a list. -/
def hasChar (sep : Char) : List Char → Bool
  | [] => false
  | c :: cs => if c = sep then true else hasChar sep cs

/-- The suffix of `l` after the last occurrence of `sep` (all of `l` when
`sep` does not occur): the "substring after the last separator". -/
def afterLast (sep : Char) : List Char → List Char
  | [] => []
  | c :: cs =>
      if hasChar sep cs then afterLast sep cs
      else if c = sep then cs
      else c :: cs

def strStartsWithSlash (s : String) : Bool :=
  match s.data with
  | c :: _ => c = '/'
  | [] => false

def strEndsWithSlash (s : String) : Bool :=
  match s.data.getLast? with
  | some c => c = '/'
  | none => false

/-- POSIX `os.path.join` for two components: an absolute second component
replaces the first; otherwise a separator is inserted unless one is present. -/
def pathJoin (a b : String) : String :=
  if strStartsWithSlash b then b
  else if a.data = [] ∨ strEndsWithSlash a = true then a ++ b
  else a ++ "/" ++ b

/-- `suffix` is a suffix of `s` (Python `s.endswith(suffix)`). -/
def strEndsWith (s suffix : String) : Bool :=
  suffix.data.isSuffixOf s.data

/-! ## `datetime.strptime(s, "%Y-%m-%d")` (CPython `_strptime` regexes)

CPython compiles `%Y` to exactly four digits, `%m` to `1[0-2]|0[1-9]|[1-9]`,
`%d` to `3[01]|[12]\d|0[1-9]|[1-9]`, requires the whole string to be
consumed, and then constructs a `datetime`, which rejects year 0 and a day
beyond the length of the month. -/

def digitVal (c : Char) : Nat := c.toNat - 48

def parse4Digits : List Char → Option (Nat × List Char)
  | a :: b :: c :: d :: rest =>
      if a.isDigit ∧ b.isDigit ∧ c.isDigit ∧ d.isDigit then
        some (1000 * digitVal a + 100 * digitVal b + 10 * digitVal c + digitVal d, rest)
      else none
  | _ => none

/-- Month field `1[0-2]|0[1-9]|[1-9]`, alternatives tried in order. -/
def parseMonth : List Char → Option (Nat × List Char)
  | a :: b :: rest =>
      if a = '1' ∧ (b = '0' ∨ b = '1' ∨ b = '2') then some (10 + digitVal b, rest)
      else if a = '0' ∧ b.isDigit ∧ b ≠ '0' then some (digitVal b, rest)
      else if a.isDigit ∧ a ≠ '0' then some (digitVal a, b :: rest)
      else none
  | [a] => if a.isDigit ∧ a ≠ '0' then some (digitVal a, []) else none
  | [] => none

/-- Day field `3[01]|[12]\d|0[1-9]|[1-9]`, alternatives tried in order. -/
def parseDay : List Char → Option (Nat × List Char)
  | a :: b :: rest =>
      if a = '3' ∧ (b = '0' ∨ b = '1') then some (30 + digitVal b, rest)
      else if (a = '1' ∨ a = '2') ∧ b.isDigit then some (10 * digitVal a + digitVal b, rest)
      else if a = '0' ∧ b.isDigit ∧ b ≠ '0' then some (digitVal b, rest)
      else if a.isDigit ∧ a ≠ '0' then some (digitVal a, b :: rest)
      else none
  | [a] => if a.isDigit ∧ a ≠ '0' then some (digitVal a, []) else none
  | [] => none

def isLeapYear (y : Nat) : Bool := (y % 4 == 0 && y % 100 != 0) || y % 400 == 0

def daysInMonth (y m : Nat) : Nat :=
  if m = 2 then (if isLeapYear y then 29 else 28)
  else if m = 4 ∨ m = 6 ∨ m = 9 ∨ m = 11 then 30
  else 31

/-- Whether `datetime.strptime(s, "%Y-%m-%d")` succeeds. -/
def strptimeYmd (s : String) : Bool :=
  match parse4Digits s.data with
  | none => false
  | some (y, r1) =>
      match r1 with
      | '-' :: r2 =>
          match parseMonth r2 with
          | none => false
          | some (m, r3) =>
              match r3 with
              | '-' :: r4 =>
                  match parseDay r4 with
                  | none => false
                  | some (d, r5) =>
                      r5.isEmpty && decide (1 ≤ y) && decide (d ≤ daysInMonth y m)
              | _ => false
      | _ => false

/-! ## Catalog store (sqlite3 `images` table) -/

/-- A row of the `images` table (the surrogate `id` key is the list position
and is not stored). -/
structure ApodRow where
  full_path : String
  file_size : Nat
  hash_value : String
  date_downloaded : String
deriving Repr, DecidableEq

/-- The `CREATE TABLE` query text of `create_image_db`, verbatim. -/
def createTableQuery : String :=
  "CREATE TABLE IF NOT EXISTS images (\n        id integer PRIMARY KEY NOT NULL,\n        full_path text NOT NULL,\n        file_size int NOT NULL,\n        hash_value text NOT NULL,\n        date_downloaded datetime NOT NULL\n        );"

/-- The `INSERT` query text of `add_image_to_db`, verbatim: note the stray
closing parenthesis on the line after the `VALUES` clause. -/
def insertQuery : String :=
  "INSERT INTO images (\n        full_path,\n        file_size,\n        hash_value,\n        date_downloaded)\n        VALUES (?, ?, ?, ?)\n        );"

def sqlParenScan : Nat → List Char → Bool
  | d, [] => d = 0
  | d, c :: cs =>
      if c = '(' then sqlParenScan (d + 1) cs
      else if c = ')' then
        match d with
        | 0 => false
        | e + 1 => sqlParenScan e cs
      else sqlParenScan d cs

/-- Parenthesis scan of a SQL statement: any SQL front end rejects a
statement whose parentheses are unbalanced, which is the only way the two
statements above differ in well-formedness. -/
def sqlParensOk (q : String) : Bool := sqlParenScan 0 q.data

/-- `create_image_db`: connects (creating the db file if absent) and runs
`CREATE TABLE IF NOT EXISTS images`, so an existing table is untouched and
an absent one becomes empty. -/
def create_image_db : Option (List ApodRow) → Option (List ApodRow)
  | some t => some t
  | none => some []

/-- `add_image_to_db`: executes `insertQuery` with the given values; a
malformed statement raises `sqlite3.OperationalError` and nothing is
committed. -/
def add_image_to_db (table : List ApodRow) (image_path : String) (image_size : Nat)
    (image_sha256 : String) (now : String) : Except String (List ApodRow) :=
  if sqlParensOk insertQuery then
    Except.ok (table ++ [⟨image_path, image_size, image_sha256, now⟩])
  else
    Except.error "sqlite3.OperationalError: syntax error"

/-- `image_already_in_db`: `SELECT COUNT(id) FROM images WHERE hash_value
= :hash`, then `False` when the count is 0 and `True` otherwise. -/
def image_already_in_db (table : List ApodRow) (image_sha256 : String) : Bool :=
  if (table.countP (fun r => r.hash_value == image_sha256)) = 0 then false else true

/-! ## Parameter resolvers, fetchers, path computation -/

/-- `get_image_dir_path`: requires a second `argv` entry naming an existing
directory; otherwise prints an error and exits. -/
def get_image_dir_path (argv : List String) (isdir : String → Bool) : Except String String :=
  if argv.length ≥ 2 then
    let dir_path := argv.getD 1 ""
    if isdir dir_path then Except.ok dir_path
    else Except.error "Script execution aborted"
  else Except.error "Script execution aborted"

/-- `get_apod_date`: a third `argv` entry is validated with
`datetime.strptime(-, "%Y-%m-%d")` and returned verbatim; with no third
entry, today's ISO date is used. -/
def get_apod_date (argv : List String) (today : String) : Except String String :=
  if argv.length ≥ 3 then
    let apod_date := argv.getD 2 ""
    if strptimeYmd apod_date then Except.ok apod_date
    else Except.error "Script execution aborted"
  else Except.ok today

/-- `get_image_path`: the section of the URL after the last `/` joined to
the directory. -/
def get_image_path (image_url dir_path : String) : String :=
  let img_name := String.mk ((pySplitChar '/' image_url.data).getLastD [])
  pathJoin dir_path img_name

/-- The metadata record: only `url` is consumed by the pipeline. -/
structure ApodMeta where
  url : String
deriving Repr, DecidableEq

/-- An HTTP response to the metadata request. -/
structure MetaResponse where
  status_code : Nat
  body : ApodMeta
deriving Repr, DecidableEq

/-- An HTTP response to the image request. -/
structure ImgResponse where
  status_code : Nat
  content : List Nat
deriving Repr, DecidableEq

/-- `get_apod_info`: 200 returns the parsed record, 404 exits with a
message telling the user to input an existing past date, any other status
exits with the generic connection message. -/
def get_apod_info (resp : MetaResponse) : Except String ApodMeta :=
  if resp.status_code = 200 then Except.ok resp.body
  else if resp.status_code = 404 then
    Except.error ("Unable to establish connection: " ++ toString resp.status_code ++
      "\nMake sure to input an existing past date.")
  else
    Except.error ("Unable to establish connection: " ++ toString resp.status_code)

/-- `download_apod_image`: 200 returns the raw content, anything else exits. -/
def download_apod_image (resp : ImgResponse) : Except String (List Nat) :=
  if resp.status_code = 200 then Except.ok resp.content
  else Except.error "Script execution aborted"

/-! ## The pipeline driver `main` -/

/-- The external world of one run: `argv`, the filesystem's directory
predicate, today's date, and the two HTTP responses. -/
structure Env where
  argv : List String
  isdir : String → Bool
  today : String
  metaResponse : MetaResponse
  imgResponse : ImgResponse

/-- Mutable world state: catalog db file and table, files written, and the
desktop background. -/
structure RunState where
  dbFileExists : Bool
  imagesTable : Option (List ApodRow)
  writtenFiles : List (String × List Nat)
  background : Option String
deriving Repr, DecidableEq

inductive Event where
  | netRequest (url : String) (dateParam : Option String)
  | dbFileCreated
  | tableCreated
  | fileWritten (path : String)
  | rowInserted (hashv : String)
  | backgroundSet (path : String)
  | scriptExit (msg : String)
deriving Repr, DecidableEq

/-- Outcome of a run: final state, the ordered side-effect trace, whether
`main` ran to completion (`false` = the process exited early), and the
values `main` computed for path, digest and size, when it got that far. -/
structure RunResult where
  finalState : RunState
  events : List Event
  completed : Bool
  computedPath : Option String
  computedSha : Option String
  computedSize : Option Nat
deriving Repr, DecidableEq

def apodApiUrl : String := "https://api.nasa.gov/planetary/apod"

/-- `main`, line by line: resolve dir and date, `create_image_db`, fetch
metadata, download image, fingerprint, compute path, then save the file
only when the digest is not in the catalog (the `add_image_to_db` call on
the following source line is commented out), and always set the background. -/
def runMain (env : Env) (st0 : RunState) : RunResult :=
  match get_image_dir_path env.argv env.isdir with
  | Except.error m => ⟨st0, [Event.scriptExit m], false, none, none, none⟩
  | Except.ok image_dir_path =>
    match get_apod_date env.argv env.today with
    | Except.error m => ⟨st0, [Event.scriptExit m], false, none, none, none⟩
    | Except.ok _apod_date =>
      let ev1 : List Event :=
        (if st0.dbFileExists then [] else [Event.dbFileCreated]) ++
        (match st0.imagesTable with | some _ => [] | none => [Event.tableCreated])
      let st1 : RunState := { st0 with dbFileExists := true,
                                       imagesTable := create_image_db st0.imagesTable }
      let ev2 := ev1 ++ [Event.netRequest apodApiUrl (some _apod_date)]
      match get_apod_info env.metaResponse with
      | Except.error m => ⟨st1, ev2 ++ [Event.scriptExit m], false, none, none, none⟩
      | Except.ok apod_info =>
        let image_url := apod_info.url
        let ev3 := ev2 ++ [Event.netRequest image_url none]
        match download_apod_image env.imgResponse with
        | Except.error m => ⟨st1, ev3 ++ [Event.scriptExit m], false, none, none, none⟩
        | Except.ok content =>
          let image_sha256 := sha256hexdigest content
          let image_size := content.length
          let image_path := get_image_path image_url image_dir_path
          if image_already_in_db (st1.imagesTable.getD []) image_sha256 then
            ⟨{ st1 with background := some image_path },
             ev3 ++ [Event.backgroundSet image_path], true,
             some image_path, some image_sha256, some image_size⟩
          else
            ⟨{ st1 with writtenFiles := st1.writtenFiles ++ [(image_path, content)],
                        background := some image_path },
             ev3 ++ [Event.fileWritten image_path, Event.backgroundSet image_path], true,
             some image_path, some image_sha256, some image_size⟩

/-! ## Helper lemmas -/

/-- Python `split` never returns an empty list of groups. -/
theorem pySplit_ne_nil (sep : Char) (l : List Char) : pySplitChar sep l ≠ [] := by
  cases l with
  | nil => simp [pySplitChar]
  | cons c cs =>
      simp only [pySplitChar]
      split
      · simp
      · split <;> simp

/-- Splitting a separator-free list yields the single group `l`. -/
theorem pySplit_no_sep (sep : Char) (l : List Char) (h : hasChar sep l = false) :
    pySplitChar sep l = [l] := by
  induction l with
  | nil => rfl
  | cons c cs ih =>
      simp only [hasChar] at h
      by_cases hc : c = sep
      · simp [hc] at h
      · simp only [hc, if_false] at h
        simp [pySplitChar, hc, ih h]

/-- Splitting a list containing the separator yields at least two groups. -/
theorem pySplit_has_sep (sep : Char) (l : List Char) (h : hasChar sep l = true) :
    ∃ g gs, pySplitChar sep l = g :: gs ∧ gs ≠ [] := by
  induction l with
  | nil => simp [hasChar] at h
  | cons c cs ih =>
      by_cases hc : c = sep
      · refine ⟨[], pySplitChar sep cs, ?_, pySplit_ne_nil sep cs⟩
        simp [pySplitChar, hc]
      · simp only [hasChar, hc, if_false] at h
        obtain ⟨g, gs, hr, hgs⟩ := ih h
        exact ⟨c :: g, gs, by simp [pySplitChar, hc, hr], hgs⟩

/-- `getLastD` does not depend on the fallback when the list is nonempty. -/
theorem getLastD_indep {α : Type} (gs : List α) (d d' : α) (h : gs ≠ []) :
    gs.getLastD d = gs.getLastD d' := by
  cases gs with
  | nil => exact absurd rfl h
  | cons x xs => rw [List.getLastD_cons, List.getLastD_cons]

/-- A separator-free list is its own suffix after the last separator. -/
theorem afterLast_no_sep (sep : Char) (l : List Char) (h : hasChar sep l = false) :
    afterLast sep l = l := by
  induction l with
  | nil => rfl
  | cons c cs ih =>
      simp only [hasChar] at h
      by_cases hc : c = sep
      · simp [hc] at h
      · simp only [hc, if_false] at h
        simp [afterLast, h, hc]

/-- The last group of Python `split` is the suffix after the last separator. -/
theorem pySplit_getLastD (sep : Char) (l : List Char) :
    (pySplitChar sep l).getLastD [] = afterLast sep l := by
  induction l with
  | nil => rfl
  | cons c cs ih =>
      by_cases hc : c = sep
      · have h1 : pySplitChar sep (c :: cs) = [] :: pySplitChar sep cs := by
          simp [pySplitChar, hc]
        rw [h1, List.getLastD_cons, ih]
        cases hcon : hasChar sep cs with
        | false => rw [afterLast_no_sep sep cs hcon]; simp [afterLast, hcon, hc]
        | true => simp [afterLast, hcon, hc]
      · cases hcon : hasChar sep cs with
        | false =>
            have hcc : hasChar sep (c :: cs) = false := by simp [hasChar, hc, hcon]
            rw [pySplit_no_sep sep (c :: cs) hcc, afterLast_no_sep sep (c :: cs) hcc]
            simp
        | true =>
            obtain ⟨g, gs, hr, hgs⟩ := pySplit_has_sep sep cs hcon
            have h1 : pySplitChar sep (c :: cs) = (c :: g) :: gs := by
              simp [pySplitChar, hc, hr]
            rw [h1, List.getLastD_cons]
            rw [hr, List.getLastD_cons] at ih
            rw [getLastD_indep gs (c :: g) g hgs, ih]
            simp [afterLast, hcon]

/-- `get_image_path` in terms of the suffix of the URL after its last slash. -/
theorem get_image_path_eq (image_url dir_path : String) :
    get_image_path image_url dir_path =
      pathJoin dir_path (String.mk (afterLast '/' image_url.data)) := by
  unfold get_image_path
  rw [show (pySplitChar '/' image_url.data).getLastD [] = afterLast '/' image_url.data from
    pySplit_getLastD '/' image_url.data]

/-- A 200 metadata response is returned parsed. -/
theorem get_apod_info_200 (resp : MetaResponse) (h : resp.status_code = 200) :
    get_apod_info resp = Except.ok resp.body := by
  simp [get_apod_info, h]

/-- A 404 metadata response exits with the past-date message. -/
theorem get_apod_info_404 (resp : MetaResponse) (h : resp.status_code = 404) :
    get_apod_info resp =
      Except.error ("Unable to establish connection: 404\nMake sure to input an existing past date.") := by
  simp [get_apod_info, h]
  rfl

/-- A 200 image response yields its content. -/
theorem download_apod_image_200 (resp : ImgResponse) (h : resp.status_code = 200) :
    download_apod_image resp = Except.ok resp.content := by
  simp [download_apod_image, h]

/-- A date argument accepted by `strptime` is returned verbatim. -/
theorem get_apod_date_valid (argv : List String) (today : String)
    (hlen : argv.length ≥ 3) (hok : strptimeYmd (argv.getD 2 "") = true) :
    get_apod_date argv today = Except.ok (argv.getD 2 "") := by
  simp only [get_apod_date]
  rw [if_pos hlen, if_pos hok]

/-- A malformed date argument aborts the script. -/
theorem get_apod_date_malformed (argv : List String) (today : String)
    (hlen : argv.length ≥ 3) (hbad : strptimeYmd (argv.getD 2 "") = false) :
    get_apod_date argv today = Except.error "Script execution aborted" := by
  simp only [get_apod_date]
  rw [if_pos hlen, if_neg (by simpa using hbad)]

/-- Catalog-mutating events: a file written to disk or a row inserted. -/
def isMutationEvent : Event → Bool
  | Event.fileWritten _ => true
  | Event.rowInserted _ => true
  | _ => false

/-- Network request events. -/
def isNetRequestEvent : Event → Bool
  | Event.netRequest _ _ => true
  | _ => false

/-- Background-set events. -/
def isBackgroundEvent : Event → Bool
  | Event.backgroundSet _ => true
  | _ => false

/-! ## Concrete scenarios -/

/-- Fresh initial state: no catalog db file, no table, no files, no background. -/
def st0Empty : RunState := ⟨false, none, [], none⟩

/-- Scenario A: `/imgs` exists, no date argument, metadata 200 with url
`https://example/img.jpg`, image body `b"abc"`. -/
def envScenarioA : Env :=
  ⟨["apod_desktop.py", "/imgs"], fun d => d == "/imgs", "2022-10-12",
   ⟨200, ⟨"https://example/img.jpg"⟩⟩, ⟨200, [97, 98, 99]⟩⟩

def runScenarioA : RunResult := runMain envScenarioA st0Empty

/-! ## Claims -/

set_option maxRecDepth 100000 in
/-- Claim C1 (code bug): in scenario A the computed local path ends in
`img.jpg`, the computed digest is SHA-256 of the bytes of `"abc"`, and the
computed size is 3, as claimed — but the catalog's `images` table holds
exactly as many rows after the run as before it (zero more, not one more):
the `add_image_to_db` call in `main` is commented out, so no row is ever
inserted. -/
theorem scenarioA_catalog_gains_no_row :
    runScenarioA.completed = true ∧
    strEndsWith (runScenarioA.computedPath.getD "") "img.jpg" = true ∧
    runScenarioA.computedSha = some (sha256hexdigest [97, 98, 99]) ∧
    runScenarioA.computedSha =
      some "ba7816bf8f01cfea414140de5dae2223b00361a396177a9cb410ff61f20015ad" ∧
    runScenarioA.computedSize = some 3 ∧
    (runScenarioA.finalState.imagesTable.getD []).length =
      (st0Empty.imagesTable.getD []).length ∧
    (runScenarioA.events.contains (Event.rowInserted
      "ba7816bf8f01cfea414140de5dae2223b00361a396177a9cb410ff61f20015ad")) = false := by
  decide

/-- Claim C3 (code bug): the existence check is `false` for a digest never
inserted, but inserting that digest through `add_image_to_db` is
impossible: the call raises a storage-layer error (its SQL has a stray
closing parenthesis), no row is committed, and the check stays `false`. -/
theorem lookup_after_insert_impossible :
    image_already_in_db []
      "ba7816bf8f01cfea414140de5dae2223b00361a396177a9cb410ff61f20015ad" = false ∧
    add_image_to_db [] "/imgs/img.jpg" 3
      "ba7816bf8f01cfea414140de5dae2223b00361a396177a9cb410ff61f20015ad" "2022-10-12" =
      Except.error "sqlite3.OperationalError: syntax error" :=
  ⟨rfl, rfl⟩

/-- Claim C4 (confirmed): for every input, `add_image_to_db` raises a
storage-layer error and commits nothing: the `INSERT` statement has a
stray closing parenthesis after the `VALUES` clause, so it never parses. -/
theorem add_image_to_db_always_errors (t : List ApodRow) (p : String) (s : Nat)
    (hv now : String) :
    sqlParensOk insertQuery = false ∧
    add_image_to_db t p s hv now = Except.error "sqlite3.OperationalError: syntax error" := by
  refine ⟨by decide, ?_⟩
  unfold add_image_to_db
  rw [if_neg (by decide)]

/-- Claim C9 (confirmed): `create_image_db` is idempotent: when the
`images` table already exists it is left unchanged (no rows dropped), and
running it twice equals running it once. -/
theorem create_image_db_idempotent :
    (∀ t : List ApodRow, create_image_db (some t) = some t) ∧
    (∀ db : Option (List ApodRow),
      create_image_db (create_image_db db) = create_image_db db) :=
  ⟨fun _ => rfl, fun db => by cases db <;> rfl⟩

/-- Claim C6 (confirmed): the metadata fetcher returns the parsed record on
HTTP 200, terminates with the past-date message on 404, and never returns
a value for any non-200 status. -/
theorem get_apod_info_case_analysis (resp : MetaResponse) :
    (resp.status_code = 200 → get_apod_info resp = Except.ok resp.body) ∧
    (resp.status_code = 404 → get_apod_info resp =
      Except.error ("Unable to establish connection: 404\nMake sure to input an existing past date.")) ∧
    (resp.status_code ≠ 200 → (get_apod_info resp).isOk = false) := by
  refine ⟨get_apod_info_200 resp, get_apod_info_404 resp, ?_⟩
  intro h
  unfold get_apod_info
  rw [if_neg h]
  split <;> rfl

/-- Claim C6 witness at statuses 200, 404, and 500. -/
theorem get_apod_info_case_analysis_witness :
    get_apod_info ⟨200, ⟨"https://example/img.jpg"⟩⟩ =
      Except.ok ⟨"https://example/img.jpg"⟩ ∧
    get_apod_info ⟨404, ⟨""⟩⟩ =
      Except.error "Unable to establish connection: 404\nMake sure to input an existing past date." ∧
    (get_apod_info ⟨500, ⟨""⟩⟩).isOk = false :=
  ⟨(get_apod_info_case_analysis ⟨200, ⟨"https://example/img.jpg"⟩⟩).1 rfl,
   (get_apod_info_case_analysis ⟨404, ⟨""⟩⟩).2.1 rfl,
   (get_apod_info_case_analysis ⟨500, ⟨""⟩⟩).2.2 (by decide)⟩

/-- Claim C8 (confirmed): for every URL and directory, `get_image_path` is
the directory joined with the substring of the URL after its last `/`. -/
theorem get_image_path_is_join_of_last_segment (image_url dir_path : String) :
    get_image_path image_url dir_path =
      pathJoin dir_path (String.mk (afterLast '/' image_url.data)) :=
  get_image_path_eq image_url dir_path

/-- Scenario for claim C10: an unpadded date argument. -/
def envUnpadded : Env :=
  ⟨["apod_desktop.py", "/imgs", "2022-1-5"], fun d => d == "/imgs", "2022-10-12",
   ⟨200, ⟨"https://example/img.jpg"⟩⟩, ⟨200, [97, 98, 99]⟩⟩

/-- Claim C10 (confirmed): the date validator accepts `"2022-1-5"`, which
is not the zero-padded form `"2022-01-05"`; every accepted third argument
is returned verbatim; and in a run with that argument, the metadata
request carries the unnormalized string as its date parameter. -/
theorem strptime_accepts_unpadded :
    strptimeYmd "2022-1-5" = true ∧
    "2022-1-5" ≠ "2022-01-05" ∧
    (∀ a dir d today : String,
      strptimeYmd d = true → get_apod_date [a, dir, d] today = Except.ok d) ∧
    (runMain envUnpadded st0Empty).events.contains
      (Event.netRequest apodApiUrl (some "2022-1-5")) = true := by
  refine ⟨by decide, by decide, ?_, by decide⟩
  intro a dir d today hd
  exact get_apod_date_valid [a, dir, d] today (by simp) hd

/-- Claim C10 witness: the concrete unpadded argument `"2022-1-5"`. -/
theorem strptime_accepts_unpadded_witness :
    get_apod_date ["apod_desktop.py", "/imgs", "2022-1-5"] "2022-10-12" =
      Except.ok "2022-1-5" :=
  strptime_accepts_unpadded.2.2.1 "apod_desktop.py" "/imgs" "2022-1-5" "2022-10-12" (by decide)

/-- Scenario C: the metadata fetch returns HTTP 404. -/
def env404 : Env :=
  ⟨["apod_desktop.py", "/imgs"], fun d => d == "/imgs", "2022-10-12",
   ⟨404, ⟨""⟩⟩, ⟨200, []⟩⟩

/-- Claim C5 counterexample: in a 404 run starting with no catalog, the
catalog database file and its `images` table ARE created before the
process terminates — `create_image_db` runs before the metadata fetch —
so the run does not terminate before every catalog mutation. -/
theorem meta404_catalog_created_before_fetch :
    (runMain env404 st0Empty).completed = false ∧
    (runMain env404 st0Empty).events.contains Event.dbFileCreated = true ∧
    (runMain env404 st0Empty).events.contains Event.tableCreated = true ∧
    (runMain env404 st0Empty).finalState.dbFileExists = true ∧
    (runMain env404 st0Empty).finalState.imagesTable = some [] := by
  decide

/-- Claim C5 as amended: for every run whose metadata fetch returns HTTP
404, the process terminates before any image file is written, before any
row is inserted into the catalog, and before the background is set —
though the catalog database file and empty `images` table are created (if
absent) before the fetch. -/
theorem meta404_no_write_no_rows (env : Env) (st0 : RunState)
    (h404 : env.metaResponse.status_code = 404) :
    (runMain env st0).completed = false ∧
    (runMain env st0).finalState.writtenFiles = st0.writtenFiles ∧
    (runMain env st0).finalState.background = st0.background ∧
    (runMain env st0).finalState.imagesTable.getD [] = st0.imagesTable.getD [] ∧
    (runMain env st0).events.all
      (fun e => !(isMutationEvent e || isBackgroundEvent e)) = true := by
  unfold runMain
  cases hdir : get_image_dir_path env.argv env.isdir with
  | error m => simp [isMutationEvent, isBackgroundEvent]
  | ok dir =>
      cases hdate : get_apod_date env.argv env.today with
      | error m => simp [isMutationEvent, isBackgroundEvent]
      | ok d =>
          rw [get_apod_info_404 env.metaResponse h404]
          cases hdb : st0.dbFileExists <;> cases htab : st0.imagesTable <;>
            simp [create_image_db, htab, isMutationEvent, isBackgroundEvent]

/-- Claim C5 witness: the amended statement at the concrete 404 scenario. -/
theorem meta404_no_write_no_rows_witness :
    (runMain env404 st0Empty).completed = false ∧
    (runMain env404 st0Empty).finalState.writtenFiles = st0Empty.writtenFiles ∧
    (runMain env404 st0Empty).finalState.background = st0Empty.background ∧
    (runMain env404 st0Empty).finalState.imagesTable.getD [] =
      st0Empty.imagesTable.getD [] ∧
    (runMain env404 st0Empty).events.all
      (fun e => !(isMutationEvent e || isBackgroundEvent e)) = true :=
  meta404_no_write_no_rows env404 st0Empty rfl

/-- Claim C7 (confirmed): for every run with a date argument that
`strptime` rejects, the script aborts with no network request issued and
the world state untouched. -/
theorem malformed_date_aborts_before_network (env : Env) (st0 : RunState)
    (hlen : env.argv.length ≥ 3)
    (hbad : strptimeYmd (env.argv.getD 2 "") = false) :
    (runMain env st0).completed = false ∧
    (runMain env st0).finalState = st0 ∧
    (runMain env st0).events.all (fun e => !(isNetRequestEvent e)) = true := by
  unfold runMain
  cases hdir : get_image_dir_path env.argv env.isdir with
  | error m => simp [isNetRequestEvent]
  | ok dir =>
      rw [get_apod_date_malformed env.argv env.today hlen hbad]
      simp [isNetRequestEvent]

/-- Scenario: the malformed date argument `2022/13/40`. -/
def envBadDate : Env :=
  ⟨["apod_desktop.py", "/imgs", "2022/13/40"], fun d => d == "/imgs", "2022-10-12",
   ⟨200, ⟨"https://example/img.jpg"⟩⟩, ⟨200, [97, 98, 99]⟩⟩

/-- Claim C7 witness at the malformed date `2022/13/40`. -/
theorem malformed_date_aborts_before_network_witness :
    (runMain envBadDate st0Empty).completed = false ∧
    (runMain envBadDate st0Empty).finalState = st0Empty ∧
    (runMain envBadDate st0Empty).events.all (fun e => !(isNetRequestEvent e)) = true :=
  malformed_date_aborts_before_network envBadDate st0Empty (by decide) (by decide)

/-- Claim C2 (confirmed): in every run that reaches the fingerprint check
and whose digest already matches a catalog row, no file is written, no row
is added, and the background is still set to the path recomputed from the
URL (directory joined with the URL's last path segment). -/
theorem duplicate_digest_skips_write_still_sets_background
    (env : Env) (st0 : RunState) (dir d : String) (t : List ApodRow)
    (hdir : get_image_dir_path env.argv env.isdir = Except.ok dir)
    (hdate : get_apod_date env.argv env.today = Except.ok d)
    (htab : st0.imagesTable = some t)
    (hmeta : env.metaResponse.status_code = 200)
    (himg : env.imgResponse.status_code = 200)
    (hdup : image_already_in_db t (sha256hexdigest env.imgResponse.content) = true) :
    (runMain env st0).finalState.writtenFiles = st0.writtenFiles ∧
    (runMain env st0).finalState.imagesTable = some t ∧
    (runMain env st0).events.all (fun e => !(isMutationEvent e)) = true ∧
    (runMain env st0).finalState.background =
      some (pathJoin dir (String.mk (afterLast '/' env.metaResponse.body.url.data))) ∧
    (runMain env st0).events.contains
      (Event.backgroundSet
        (pathJoin dir (String.mk (afterLast '/' env.metaResponse.body.url.data)))) = true ∧
    (runMain env st0).completed = true := by
  unfold runMain
  rw [hdir, hdate, get_apod_info_200 env.metaResponse hmeta,
      download_apod_image_200 env.imgResponse himg, htab]
  simp only [create_image_db, Option.getD_some]
  rw [if_pos hdup]
  rw [← get_image_path_eq]
  cases hdb : st0.dbFileExists <;>
    simp [isMutationEvent, htab]

/-- A catalog row whose `hash_value` is the SHA-256 digest of `b"abc"`,
recorded under a path different from the one scenario A computes. -/
def rowAbc : ApodRow :=
  ⟨"/old/img.jpg", 3, "ba7816bf8f01cfea414140de5dae2223b00361a396177a9cb410ff61f20015ad",
   "2022-01-01"⟩

/-- Initial state for scenario B: catalog already holds `rowAbc`. -/
def stDup : RunState := ⟨true, some [rowAbc], [], none⟩

set_option maxRecDepth 100000 in
/-- Claim C2 witness: scenario A's responses against a catalog that already
holds the digest of `b"abc"`. -/
theorem duplicate_digest_skips_write_still_sets_background_witness :
    (runMain envScenarioA stDup).finalState.writtenFiles = stDup.writtenFiles ∧
    (runMain envScenarioA stDup).finalState.imagesTable = some [rowAbc] ∧
    (runMain envScenarioA stDup).events.all (fun e => !(isMutationEvent e)) = true ∧
    (runMain envScenarioA stDup).finalState.background =
      some (pathJoin "/imgs" (String.mk (afterLast '/' envScenarioA.metaResponse.body.url.data))) ∧
    (runMain envScenarioA stDup).events.contains
      (Event.backgroundSet
        (pathJoin "/imgs" (String.mk (afterLast '/' envScenarioA.metaResponse.body.url.data)))) = true ∧
    (runMain envScenarioA stDup).completed = true :=
  duplicate_digest_skips_write_still_sets_background envScenarioA stDup "/imgs" "2022-10-12"
    [rowAbc] rfl rfl rfl rfl rfl (by decide)
